import Mathlib

/-!
Shallow embedding of the EnvHolster package (src/index.ts): round-robin
rotation over environment-variable values with the rotation cursor persisted
in one of three backends (process memory, a JSON file on disk, a MongoDB
collection).

Modelling conventions:
* `process.env` is an ordered association list `List (String × String)`;
  `Object.keys` enumeration order is the list order.
* JS string indexing that can yield `undefined` (`envKeys[i]` out of bounds)
  is modelled with `Option String`; `EnvKeyResult.key` is therefore an
  `Option String` (`some ""` is the empty string the error path produces,
  `none` is JS `undefined`).
* The mutable ambient state (memory caches, the filesystem, the Mongo
  collection, the cached client) is an explicit `World` record threaded
  through the functions.
* Fallible operations return `Except String`; the thrown `Error`'s `.message`
  is the `String`.  External failures (unreadable file, failed connect
  attempts, failed find/insert/update) are modelled by oracles / fault flags
  stored in the `World`.
* `setTimeout` delays are recorded in the `ConnectOutcome.delays` list
  (milliseconds), in the order they are awaited.
-/

namespace EnvHolster

/-- JS `s.startsWith(p)` on the character sequences of the strings. -/
def strStartsWith (s p : String) : Bool :=
  p.data.isPrefixOf s.data

/-- Lookup of `env[k]` in the ordered association list modelling `process.env`:
`undefined` is `none`. -/
def envGet (env : List (String × String)) (k : String) : Option String :=
  (env.find? (fun e => e.1 == k)).map Prod.snd

/-- JS `Array.prototype.filter(Boolean)` acting on one element that may be
`undefined` (`none`) or a string: truthy strings survive, `undefined` and `""`
are dropped. -/
def jsTruthy (v : Option String) : Option String :=
  match v with
  | none => none
  | some s => if s = "" then none else some s

/-- Translation of `getEnvKeys` (src/index.ts:80-85):
`Object.keys(process.env).filter(k => k.startsWith(base)).map(k => process.env[k]).filter(Boolean)`. -/
def getEnvKeys (baseEnvName : String) (env : List (String × String)) : List String :=
  (((env.map Prod.fst).filter (fun k => strStartsWith k baseEnvName)).map
    (fun k => envGet env k)).filterMap jsTruthy

/-- Modelled from the spec (section 4.1), for the refinement claim about the
Key Set Resolver: "Scans all configuration entries, filters by
name-starts-with-prefix, maps to values, discards empty/missing values, and
returns the surviving sequence in source enumeration order." -/
def specResolve (baseEnvName : String) (env : List (String × String)) : List String :=
  ((env.filter (fun e => strStartsWith e.1 baseEnvName)).map Prod.snd).filter
    (fun v => !(v == ""))

/-- The `Cache` interface of src/index.ts (a record holding the cursor). -/
structure Cache where
  index : Nat
deriving DecidableEq, Repr

/-- The `EnvKeyResult` interface.  `key` is `Option String` because the JS
value can be `undefined` when the candidate list is indexed out of bounds. -/
structure EnvKeyResult where
  key : Option String
  index : Nat
  message : String
deriving DecidableEq, Repr

/-- The `storage` selector of `GetNextEnvKeyParams` (TS default: `DATABASE`). -/
inductive Storage where
  | DISK
  | MEMORY
  | DATABASE
deriving DecidableEq, Repr

/-- Observable outcome of `connectWithRetry`: the returned/thrown result, how
many `client.connect()` attempts were made, and the `setTimeout` delays (in
ms) awaited between attempts, in order. -/
structure ConnectOutcome where
  result : Except String Unit
  attemptsMade : Nat
  delays : List Nat

/-- Loop body of `connectWithRetry` (src/index.ts:52-64).  `attempt` is the
1-based attempt counter, the fuel argument is the number of loop iterations
still allowed (`attempts - attempt + 1` at entry).  `ok attempt` tells whether
the `client.connect()` of that attempt succeeds; a failed attempt throws the
message `err`.  A failed attempt with `attempt < attempts` awaits
`1000 * attempt` ms and retries; the final failed attempt rethrows. -/
def connectGo (ok : Nat → Bool) (err : String) (attempts : Nat) :
    Nat → Nat → ConnectOutcome
  | _, 0 =>
    { result := Except.error "Connection attempts exceeded.", attemptsMade := 0,
      delays := [] }
  | attempt, fuel + 1 =>
    if ok attempt then
      { result := Except.ok (), attemptsMade := 1, delays := [] }
    else if attempt < attempts then
      let o := connectGo ok err attempts (attempt + 1) fuel
      { result := o.result, attemptsMade := o.attemptsMade + 1,
        delays := 1000 * attempt :: o.delays }
    else
      { result := Except.error err, attemptsMade := 1, delays := [] }

/-- Translation of `connectWithRetry` (src/index.ts:52-64), with the number of
attempts defaulting to 5 at the call site in `connectToMongo`. -/
def connectWithRetry (ok : Nat → Bool) (err : String) (attempts : Nat) :
    ConnectOutcome :=
  connectGo ok err attempts 1 attempts

/-- The module-level destructuring `const { DB_USERNAME: dbUsername = '' , ... }
= process.env` (src/index.ts:35-41): default applies when the variable is
absent (`undefined`). -/
def dbUsername (env : List (String × String)) : String :=
  (envGet env "DB_USERNAME").getD ""

/-- See `dbUsername`; default `''`. -/
def dbPassword (env : List (String × String)) : String :=
  (envGet env "DB_PASSWORD").getD ""

/-- See `dbUsername`; default `'defaultDbName'`. -/
def dbName (env : List (String × String)) : String :=
  (envGet env "DB_NAME").getD "defaultDbName"

/-- See `dbUsername`; default `'defaultClusterName'`. -/
def dbClusterName (env : List (String × String)) : String :=
  (envGet env "DB_CLUSTER").getD "defaultClusterName"

/-- The Mongo document name `envCache_${baseEnvName}` used by
`handleDatabaseStorage`. -/
def dbDocKey (baseEnvName : String) : String :=
  "envCache_" ++ baseEnvName

/-- The path `path.join(__dirname, "env_cache_" + base + ".json")` used by
`getNextEnvKey` for the DISK backend (`__dirname` is a fixed directory). -/
def cacheFilePath (baseEnvName : String) : String :=
  "__dirname/env_cache_" ++ baseEnvName ++ ".json"

/-- The ambient mutable state and external-failure oracles threaded through a
call:
* `env` — `process.env` as an ordered association list;
* `memoryCaches` — the module-level `memoryCaches` object (cursor per base
  name; `none` = no entry);
* `fsMap` — the filesystem: per path, `some c` when reading and JSON-parsing
  the file yields the record `c`, `none` when the read or parse fails
  (missing, unreadable or malformed file);
* `diskWriteFail` — `some msg` when `fs.writeFile` throws `msg`;
* `clientConnected` — whether the module-level `client` is already cached;
* `connAttemptOk` — oracle: does the k-th `client.connect()` attempt succeed;
* `connErrMsg` — the message of the error a failing connect attempt throws;
* `dbDocs` — the `fileIndex` collection: document name to its `index` field;
* `findFail`/`insertFail`/`updateFail` — `some msg` when the corresponding
  collection operation throws `msg`. -/
structure World where
  env : List (String × String)
  memoryCaches : String → Option Nat
  fsMap : String → Option Cache
  diskWriteFail : Option String
  clientConnected : Bool
  connAttemptOk : Nat → Bool
  connErrMsg : String
  dbDocs : String → Option Nat
  findFail : Option String
  insertFail : Option String
  updateFail : Option String

/-- Translation of `handleMemoryStorage` (src/index.ts:110-126): lazily create
the cache entry, read the cursor, serve `envKeys[cursor]`, and when more than
one key exists advance the cursor modulo the list length.  Returns the result
and the new `memoryCaches`. -/
def handleMemoryStorage (envKeys : List String) (baseEnvName : String)
    (memoryCaches : String → Option Nat) :
    EnvKeyResult × (String → Option Nat) :=
  let caches0 : String → Option Nat :=
    match memoryCaches baseEnvName with
    | none => fun k => if k = baseEnvName then some 0 else memoryCaches k
    | some _ => memoryCaches
  let idx : Nat := (caches0 baseEnvName).getD 0
  let key : Option String := envKeys.get? idx
  if 1 < envKeys.length then
    let newIdx := (idx + 1) % envKeys.length
    ({ key := key, index := newIdx,
       message := "Successfully retrieved the key and updated the memory cache. Current index: "
         ++ toString newIdx },
     fun k => if k = baseEnvName then some newIdx else caches0 k)
  else
    ({ key := key, index := idx,
       message := "Successfully retrieved the key. Only one key available, index remains 0." },
     caches0)

/-- Translation of `handleDiskStorage` (src/index.ts:87-108): read and parse
the cache file, treating any read/parse failure as `{index: 0}`; serve
`envKeys[cache.index]`; when more than one key exists advance modulo the
length and write the file (a write failure throws).  Returns the result and
the new filesystem. -/
def handleDiskStorage (envKeys : List String) (cacheFilePath : String)
    (fsMap : String → Option Cache) (diskWriteFail : Option String) :
    Except String (EnvKeyResult × (String → Option Cache)) :=
  let cache : Cache := (fsMap cacheFilePath).getD { index := 0 }
  let key : Option String := envKeys.get? cache.index
  if 1 < envKeys.length then
    let newIdx := (cache.index + 1) % envKeys.length
    match diskWriteFail with
    | some e => Except.error e
    | none =>
      Except.ok
        ({ key := key, index := newIdx,
           message := "Successfully retrieved the key and updated the file cache. Current index: "
             ++ toString newIdx },
         fun p => if p = cacheFilePath then some { index := newIdx } else fsMap p)
  else
    Except.ok
      ({ key := key, index := cache.index,
         message := "Successfully retrieved the key. Only one key available, index remains 0." },
       fsMap)

/-- Translation of `connectToMongo` (src/index.ts:66-72): reuse the cached
client, else `connectWithRetry` with 5 attempts (caching the client on
success, propagating the thrown error on failure). -/
def connectToMongo (w : World) : Except String Unit × World :=
  if w.clientConnected then (Except.ok (), w)
  else
    match (connectWithRetry w.connAttemptOk w.connErrMsg 5).result with
    | Except.ok _ => (Except.ok (), { w with clientConnected := true })
    | Except.error e => (Except.error e, w)

/-- Tail of `handleDatabaseStorage` (src/index.ts:140-153) after the current
`index` has been determined: serve `envKeys[index]`; with more than one key
advance modulo the length and `updateOne` the document (a failing update
throws), else return index 0. -/
def dbAdvance (envKeys : List String) (baseEnvName : String) (index : Nat)
    (w : World) : Except String EnvKeyResult × World :=
  let key : Option String := envKeys.get? index
  if 1 < envKeys.length then
    let index2 := (index + 1) % envKeys.length
    match w.updateFail with
    | some e => (Except.error e, w)
    | none =>
      (Except.ok
        { key := key, index := index2,
          message := "Successfully retrieved the key and updated the database cache. Current index: "
            ++ toString index2 },
       { w with dbDocs := fun k => if k = dbDocKey baseEnvName then some index2 else w.dbDocs k })
  else
    (Except.ok
      { key := key, index := 0,
        message := "Successfully retrieved the key. Only one key available, index remains 0." },
     w)

/-- Translation of `handleDatabaseStorage` (src/index.ts:128-153): require the
three `DB_*` values to be truthy, connect (lazily, with retry), `findOne` the
cursor document, inserting `{index: 0}` when absent, then serve and advance
via `dbAdvance`. -/
def handleDatabaseStorage (envKeys : List String) (baseEnvName : String)
    (w : World) : Except String EnvKeyResult × World :=
  if dbUsername w.env = "" ∨ dbPassword w.env = "" ∨ dbName w.env = "" then
    (Except.error "DB_USERNAME, DB_PASSWORD, and DB_NAME environment variables must be set for database storage.",
     w)
  else
    match (connectToMongo w).1 with
    | Except.error e => (Except.error e, (connectToMongo w).2)
    | Except.ok _ =>
      let w1 := (connectToMongo w).2
      match w1.findFail with
      | some e => (Except.error e, w1)
      | none =>
        match w1.dbDocs (dbDocKey baseEnvName) with
        | none =>
          match w1.insertFail with
          | some e => (Except.error e, w1)
          | none =>
            dbAdvance envKeys baseEnvName 0
              { w1 with dbDocs := fun k => if k = dbDocKey baseEnvName then some 0 else w1.dbDocs k }
        | some i => dbAdvance envKeys baseEnvName i w1

/-- Body of the `try` block of `getNextEnvKey` (src/index.ts:155-176): resolve
the candidate list, fail on zero candidates, short-circuit on exactly one, and
otherwise dispatch on the storage selector (`DISK` is also the `default`
branch of the `switch`). -/
def getNextEnvKeyRun (baseEnvName : String) (storage : Storage) (w : World) :
    Except String EnvKeyResult × World :=
  let envKeys := getEnvKeys baseEnvName w.env
  if envKeys.length = 0 then
    (Except.error ("No environment variables found with base name " ++ baseEnvName ++ "."), w)
  else if envKeys.length = 1 then
    (Except.ok
      { key := envKeys.get? 0, index := 0,
        message := "Only one key available, using key with index 0." },
     w)
  else
    match storage with
    | Storage.DATABASE => handleDatabaseStorage envKeys baseEnvName w
    | Storage.MEMORY =>
      let out := handleMemoryStorage envKeys baseEnvName w.memoryCaches
      (Except.ok out.1, { w with memoryCaches := out.2 })
    | Storage.DISK =>
      match handleDiskStorage envKeys (cacheFilePath baseEnvName) w.fsMap w.diskWriteFail with
      | Except.ok out => (Except.ok out.1, { w with fsMap := out.2 })
      | Except.error e => (Except.error e, w)

/-- Translation of the exported `getNextEnvKey` (src/index.ts:155-181): the
`catch` converts any thrown error into
`{ key: '', index: 0, message: "Error: " + error.message }`.  (The TS
`storage` parameter defaults to `DATABASE`; the selector is explicit here.) -/
def getNextEnvKey (baseEnvName : String) (storage : Storage) (w : World) :
    EnvKeyResult × World :=
  match getNextEnvKeyRun baseEnvName storage w with
  | (Except.ok r, w2) => (r, w2)
  | (Except.error e, w2) =>
    ({ key := some "", index := 0, message := "Error: " ++ e }, w2)

/-- The world after `j` consecutive `getNextEnvKey` calls with the same base
name and storage selector. -/
def iterCalls (baseEnvName : String) (storage : Storage) (w : World) :
    Nat → World
  | 0 => w
  | j + 1 => (getNextEnvKey baseEnvName storage (iterCalls baseEnvName storage w j)).2

/-- The worlds reachable from `w0` by any sequence of `getNextEnvKey` calls
(arbitrary base names and storage selectors). -/
inductive Reach (w0 : World) : World → Prop where
  | refl : Reach w0 w0
  | step (w : World) (b : String) (s : Storage) :
      Reach w0 w → Reach w0 (getNextEnvKey b s w).2

/-- The cursor invariant of the spec (section 3): every persisted cursor —
memory entry, cursor file, or database document — belongs to a base name
whose candidate list has more than one element, and lies strictly below the
list's length.  (In particular nothing is ever persisted for a base name with
zero or one candidates.) -/
def CursorInv (w : World) : Prop :=
  (∀ b i, w.memoryCaches b = some i →
    1 < (getEnvKeys b w.env).length ∧ i < (getEnvKeys b w.env).length) ∧
  (∀ b c, w.fsMap (cacheFilePath b) = some c →
    1 < (getEnvKeys b w.env).length ∧ c.index < (getEnvKeys b w.env).length) ∧
  (∀ b i, w.dbDocs (dbDocKey b) = some i →
    1 < (getEnvKeys b w.env).length ∧ i < (getEnvKeys b w.env).length)

/-- A sample `process.env` with two candidates under `SRV_KEY_` and complete
database configuration. -/
def wEnvA : List (String × String) :=
  [("SRV_KEY_1", "alpha"), ("SRV_KEY_2", "beta"),
   ("DB_USERNAME", "u"), ("DB_PASSWORD", "p"), ("DB_NAME", "d")]

/-- A world over `wEnvA` with fresh stores, a cached database client, and no
injected faults. -/
def w0 : World :=
  { env := wEnvA, memoryCaches := fun _ => none, fsMap := fun _ => none,
    diskWriteFail := none, clientConnected := true,
    connAttemptOk := fun _ => true, connErrMsg := "boom",
    dbDocs := fun _ => none, findFail := none, insertFail := none,
    updateFail := none }

/-- Like `w0`, but every backend store is pre-seeded with the out-of-range
cursor 5 for base name `SRV_KEY_` (whose candidate list has length 2). -/
def wSeed : World :=
  { w0 with
    memoryCaches := fun k => if k = "SRV_KEY_" then some 5 else none,
    fsMap := fun p => if p = cacheFilePath "SRV_KEY_" then some { index := 5 } else none,
    dbDocs := fun k => if k = dbDocKey "SRV_KEY_" then some 5 else none }

/-- A world whose environment lacks `DB_USERNAME` (two candidates present). -/
def wNoUser : World :=
  { w0 with env := [("SRV_KEY_1", "alpha"), ("SRV_KEY_2", "beta"),
                    ("DB_PASSWORD", "p"), ("DB_NAME", "d")] }

/-- A world whose environment lacks `DB_NAME` but has both credentials and two
candidates. -/
def wNoDbName : World :=
  { w0 with env := [("DB_USERNAME", "u"), ("DB_PASSWORD", "p"),
                    ("SRV_KEY_1", "alpha"), ("SRV_KEY_2", "beta")] }

/-- A world with no cached client and every connection attempt failing with
message `boom`. -/
def wConnFail : World :=
  { w0 with clientConnected := false, connAttemptOk := fun _ => false }

/-- A world with exactly one candidate under `SOLO_` and stores pre-seeded
with garbage, to exercise the single-candidate fast path. -/
def wSolo : World :=
  { w0 with env := [("SOLO_KEY", "gamma"), ("OTHER", "x")] }

/-- Like `wSolo` but with completely different store contents and fault flags
(same environment). -/
def wSolo2 : World :=
  { env := [("SOLO_KEY", "gamma"), ("OTHER", "x")],
    memoryCaches := fun _ => some 7,
    fsMap := fun _ => some { index := 9 },
    diskWriteFail := some "disk full", clientConnected := false,
    connAttemptOk := fun _ => false, connErrMsg := "down",
    dbDocs := fun _ => some 3, findFail := some "find broke",
    insertFail := some "insert broke", updateFail := some "update broke" }

/-- A sample environment for the Key Set Resolver: three entries match the
`A_` base name, one of them with an empty value. -/
def wEnvC8 : List (String × String) :=
  [("A_1", "x"), ("A_2", ""), ("B_1", "y"), ("A_3", "z")]

/-- Equation for `handleMemoryStorage` when the cache entry exists and more
than one key is available. -/
theorem handleMemoryStorage_some_eq (ks : List String) (b : String)
    (m : String → Option Nat) (c : Nat) (hm : m b = some c)
    (hn : 1 < ks.length) :
    handleMemoryStorage ks b m =
      ({ key := ks.get? c, index := (c + 1) % ks.length,
         message := "Successfully retrieved the key and updated the memory cache. Current index: "
           ++ toString ((c + 1) % ks.length) },
       fun k => if k = b then some ((c + 1) % ks.length) else m k) := by
  apply Prod.ext
  · simp [handleMemoryStorage, hm, hn]
  · funext k
    by_cases hk : k = b <;> simp [handleMemoryStorage, hm, hn, hk]

/-- Equation for `handleMemoryStorage` when the cache entry is missing and
more than one key is available. -/
theorem handleMemoryStorage_none_eq (ks : List String) (b : String)
    (m : String → Option Nat) (hm : m b = none) (hn : 1 < ks.length) :
    handleMemoryStorage ks b m =
      ({ key := ks.get? 0, index := 1 % ks.length,
         message := "Successfully retrieved the key and updated the memory cache. Current index: "
           ++ toString (1 % ks.length) },
       fun k => if k = b then some (1 % ks.length) else m k) := by
  apply Prod.ext
  · simp [handleMemoryStorage, hm, hn]
  · funext k
    by_cases hk : k = b <;> simp [handleMemoryStorage, hm, hn, hk]

/-- The memory handler never changes entries of other base names. -/
theorem handleMemoryStorage_snd_ne (ks : List String) (b : String)
    (m : String → Option Nat) (k : String) (hk : k ≠ b) :
    (handleMemoryStorage ks b m).2 k = m k := by
  cases hm : m b <;> by_cases hn : 1 < ks.length <;>
    simp [handleMemoryStorage, hm, hn, hk]

/-- With more than one key, the memory handler leaves the cursor advanced by
one modulo the length. -/
theorem handleMemoryStorage_snd_self (ks : List String) (b : String)
    (m : String → Option Nat) (hn : 1 < ks.length) :
    (handleMemoryStorage ks b m).2 b =
      some (((m b).getD 0 + 1) % ks.length) := by
  cases hm : m b <;> simp [handleMemoryStorage, hm, hn]

/-- Equation for `handleDiskStorage` with more than one key and a healthy
write. -/
theorem handleDiskStorage_eq (ks : List String) (p : String)
    (fsm : String → Option Cache) (hn : 1 < ks.length) :
    handleDiskStorage ks p fsm none =
      Except.ok
        ({ key := ks.get? ((fsm p).getD { index := 0 }).index,
           index := (((fsm p).getD { index := 0 }).index + 1) % ks.length,
           message := "Successfully retrieved the key and updated the file cache. Current index: "
             ++ toString ((((fsm p).getD { index := 0 }).index + 1) % ks.length) },
         fun q => if q = p then
             some { index := (((fsm p).getD { index := 0 }).index + 1) % ks.length }
           else fsm q) := by
  simp [handleDiskStorage, hn]

/-- The second component of `getNextEnvKey` is the second component of the
`try`-block body: the `catch` only rewrites the result. -/
theorem getNextEnvKey_snd (b : String) (s : Storage) (w : World) :
    (getNextEnvKey b s w).2 = (getNextEnvKeyRun b s w).2 := by
  unfold getNextEnvKey
  rcases h : getNextEnvKeyRun b s w with ⟨res, w2⟩
  cases res <;> simp

/-- With more than one candidate, the MEMORY branch of `getNextEnvKey` is the
memory handler. -/
theorem getNextEnvKey_memory_eq (b : String) (w : World)
    (hn : 1 < (getEnvKeys b w.env).length) :
    getNextEnvKey b Storage.MEMORY w =
      ((handleMemoryStorage (getEnvKeys b w.env) b w.memoryCaches).1,
       { w with
         memoryCaches := (handleMemoryStorage (getEnvKeys b w.env) b w.memoryCaches).2 }) := by
  have h0 : ¬ (getEnvKeys b w.env).length = 0 := by omega
  have h1 : ¬ (getEnvKeys b w.env).length = 1 := by omega
  simp [getNextEnvKey, getNextEnvKeyRun, h0, h1]

/-- With more than one candidate and a healthy write, the DISK branch of
`getNextEnvKey` reads the cursor (defaulting to 0), serves that index, and
writes back the advanced cursor. -/
theorem getNextEnvKey_disk_eq (b : String) (w : World)
    (hn : 1 < (getEnvKeys b w.env).length) (hwr : w.diskWriteFail = none) :
    getNextEnvKey b Storage.DISK w =
      ({ key := (getEnvKeys b w.env).get?
           ((w.fsMap (cacheFilePath b)).getD { index := 0 }).index,
         index := (((w.fsMap (cacheFilePath b)).getD { index := 0 }).index + 1)
           % (getEnvKeys b w.env).length,
         message := "Successfully retrieved the key and updated the file cache. Current index: "
           ++ toString ((((w.fsMap (cacheFilePath b)).getD { index := 0 }).index + 1)
             % (getEnvKeys b w.env).length) },
       { w with fsMap := fun q =>
           if q = cacheFilePath b then
             (some { index := (((w.fsMap (cacheFilePath b)).getD { index := 0 }).index + 1)
               % (getEnvKeys b w.env).length })
           else w.fsMap q }) := by
  have h0 : ¬ (getEnvKeys b w.env).length = 0 := by omega
  have h1 : ¬ (getEnvKeys b w.env).length = 1 := by omega
  rw [getNextEnvKey, getNextEnvKeyRun]
  simp only [h0, if_false, h1, hwr, handleDiskStorage_eq _ _ _ hn]

/-- If every connection attempt fails, the default five attempts are made,
the thrown error is propagated, and the awaited delays are exactly 1, 2, 3
and 4 seconds (there is no delay after the final attempt). -/
theorem connectWithRetry_all_fail (ok : Nat → Bool) (err : String)
    (hall : ∀ k, ok k = false) :
    connectWithRetry ok err 5 =
      { result := Except.error err, attemptsMade := 5,
        delays := [1000, 2000, 3000, 4000] } := by
  simp [connectWithRetry, connectGo, hall]

/-- The retry loop makes at most five connection attempts. -/
theorem connectWithRetry_attempts_le (ok : Nat → Bool) (err : String) :
    (connectWithRetry ok err 5).attemptsMade ≤ 5 := by
  cases h1 : ok 1 <;> cases h2 : ok 2 <;> cases h3 : ok 3 <;> cases h4 : ok 4 <;>
    cases h5 : ok 5 <;> simp [connectWithRetry, connectGo, h1, h2, h3, h4, h5]

/-- The awaited delays are `1000 * 1, 1000 * 2, ...`, one per failed
non-final attempt, so never more than four of them. -/
theorem connectWithRetry_delays_shape (ok : Nat → Bool) (err : String) :
    (connectWithRetry ok err 5).delays =
      (List.range' 1 (connectWithRetry ok err 5).delays.length).map
        (fun k => 1000 * k) ∧
    (connectWithRetry ok err 5).delays.length ≤ 4 := by
  cases h1 : ok 1 <;> cases h2 : ok 2 <;> cases h3 : ok 3 <;> cases h4 : ok 4 <;>
    cases h5 : ok 5 <;>
      simp [connectWithRetry, connectGo, h1, h2, h3, h4, h5, List.range']

/-- The three possible outcomes of `connectToMongo`. -/
theorem connectToMongo_shape (w : World) :
    connectToMongo w = (Except.ok (), w) ∨
    connectToMongo w = (Except.ok (), { w with clientConnected := true }) ∨
    (∃ e, connectToMongo w = (Except.error e, w)) := by
  unfold connectToMongo
  by_cases h : w.clientConnected
  · simp [h]
  · simp only [h, if_false]
    cases hr : (connectWithRetry w.connAttemptOk w.connErrMsg 5).result
    · exact Or.inr (Or.inr ⟨_, rfl⟩)
    · exact Or.inr (Or.inl rfl)

/-- Equation for `dbAdvance` with more than one key and a healthy update. -/
theorem dbAdvance_ok_eq (ks : List String) (b : String) (i : Nat) (w : World)
    (hn : 1 < ks.length) (hu : w.updateFail = none) :
    dbAdvance ks b i w =
      (Except.ok
        { key := ks.get? i, index := (i + 1) % ks.length,
          message := "Successfully retrieved the key and updated the database cache. Current index: "
            ++ toString ((i + 1) % ks.length) },
       { w with dbDocs := fun k =>
           if k = dbDocKey b then some ((i + 1) % ks.length) else w.dbDocs k }) := by
  simp [dbAdvance, hn, hu]

/-- Equation for `handleDatabaseStorage` with complete configuration, a cached
client, an existing cursor document, more than one key, and healthy
operations. -/
theorem handleDatabaseStorage_some_eq (ks : List String) (b : String)
    (w : World) (i : Nat)
    (hcu : ¬ dbUsername w.env = "") (hcp : ¬ dbPassword w.env = "")
    (hcn : ¬ dbName w.env = "") (hconn : w.clientConnected = true)
    (hff : w.findFail = none) (hu : w.updateFail = none)
    (hd : w.dbDocs (dbDocKey b) = some i) (hn : 1 < ks.length) :
    handleDatabaseStorage ks b w =
      (Except.ok
        { key := ks.get? i, index := (i + 1) % ks.length,
          message := "Successfully retrieved the key and updated the database cache. Current index: "
            ++ toString ((i + 1) % ks.length) },
       { w with dbDocs := fun k =>
           if k = dbDocKey b then some ((i + 1) % ks.length) else w.dbDocs k }) := by
  have hcred : ¬ (dbUsername w.env = "" ∨ dbPassword w.env = "" ∨ dbName w.env = "") := by
    simp [hcu, hcp, hcn]
  have hc : connectToMongo w = (Except.ok (), w) := by simp [connectToMongo, hconn]
  have step : handleDatabaseStorage ks b w = dbAdvance ks b i w := by
    rw [handleDatabaseStorage, if_neg hcred]
    simp only [hc, hff, hd]
  rw [step]
  exact dbAdvance_ok_eq ks b i w hn hu

/-- With complete configuration, no cached client, and every connection
attempt failing, `handleDatabaseStorage` propagates the connection error
unchanged. -/
theorem handleDatabaseStorage_conn_fail (ks : List String) (b : String)
    (w : World)
    (hcu : ¬ dbUsername w.env = "") (hcp : ¬ dbPassword w.env = "")
    (hcn : ¬ dbName w.env = "") (hconn : w.clientConnected = false)
    (hall : ∀ k, w.connAttemptOk k = false) :
    handleDatabaseStorage ks b w = (Except.error w.connErrMsg, w) := by
  rw [handleDatabaseStorage]
  have hcred : ¬ (dbUsername w.env = "" ∨ dbPassword w.env = "" ∨ dbName w.env = "") := by
    simp [hcu, hcp, hcn]
  rw [if_neg hcred]
  have hc : connectToMongo w = (Except.error w.connErrMsg, w) := by
    rw [connectToMongo, if_neg (by simp [hconn]),
      connectWithRetry_all_fail _ _ hall]
  rw [hc]

/-- With more than one key and a failing write, the disk handler throws the
write error. -/
theorem handleDiskStorage_err (ks : List String) (p : String)
    (fsm : String → Option Cache) (e : String) (hn : 1 < ks.length) :
    handleDiskStorage ks p fsm (some e) = Except.error e := by
  simp [handleDiskStorage, hn]

/-- State effects of `dbAdvance`: only the cursor document of the call's base
name can change, and a changed value is the advanced cursor, in range. -/
theorem dbAdvance_effects (ks : List String) (b : String) (i : Nat)
    (w : World) :
    ((dbAdvance ks b i w).2).env = w.env ∧
    ((dbAdvance ks b i w).2).memoryCaches = w.memoryCaches ∧
    ((dbAdvance ks b i w).2).fsMap = w.fsMap ∧
    (∀ k, k ≠ dbDocKey b → ((dbAdvance ks b i w).2).dbDocs k = w.dbDocs k) ∧
    (((dbAdvance ks b i w).2).dbDocs (dbDocKey b) = w.dbDocs (dbDocKey b) ∨
     (∃ j, ((dbAdvance ks b i w).2).dbDocs (dbDocKey b) = some j ∧
       1 < ks.length ∧ j < ks.length)) := by
  unfold dbAdvance
  by_cases hn : 1 < ks.length
  · rw [if_pos hn]
    cases hu : w.updateFail with
    | some e => exact ⟨rfl, rfl, rfl, fun k _ => rfl, Or.inl rfl⟩
    | none =>
      refine ⟨rfl, rfl, rfl, fun k hk => by simp [hk], Or.inr ?_⟩
      exact ⟨(i + 1) % ks.length, by simp, hn, Nat.mod_lt _ (by omega)⟩
  · rw [if_neg hn]
    exact ⟨rfl, rfl, rfl, fun k _ => rfl, Or.inl rfl⟩

/-- The second component of `connectToMongo` differs from the input world at
most in the `clientConnected` flag. -/
theorem connectToMongo_snd_fields (w : World) :
    ((connectToMongo w).2).env = w.env ∧
    ((connectToMongo w).2).memoryCaches = w.memoryCaches ∧
    ((connectToMongo w).2).fsMap = w.fsMap ∧
    ((connectToMongo w).2).diskWriteFail = w.diskWriteFail ∧
    ((connectToMongo w).2).dbDocs = w.dbDocs ∧
    ((connectToMongo w).2).findFail = w.findFail ∧
    ((connectToMongo w).2).insertFail = w.insertFail ∧
    ((connectToMongo w).2).updateFail = w.updateFail := by
  unfold connectToMongo
  by_cases h : w.clientConnected
  · simp [h]
  · simp only [h, if_false]
    cases hr : (connectWithRetry w.connAttemptOk w.connErrMsg 5).result <;> simp

/-- State effects of `handleDatabaseStorage`: memory caches and the
filesystem are untouched, the environment is unchanged, only the cursor
document of the call's base name can change, and its final value is its old
value, the inserted 0, or an advanced in-range cursor. -/
theorem handleDatabaseStorage_effects (ks : List String) (b : String)
    (w : World) :
    ((handleDatabaseStorage ks b w).2).env = w.env ∧
    ((handleDatabaseStorage ks b w).2).memoryCaches = w.memoryCaches ∧
    ((handleDatabaseStorage ks b w).2).fsMap = w.fsMap ∧
    (∀ k, k ≠ dbDocKey b → ((handleDatabaseStorage ks b w).2).dbDocs k = w.dbDocs k) ∧
    (((handleDatabaseStorage ks b w).2).dbDocs (dbDocKey b) = w.dbDocs (dbDocKey b) ∨
     ((handleDatabaseStorage ks b w).2).dbDocs (dbDocKey b) = some 0 ∨
     (∃ j, ((handleDatabaseStorage ks b w).2).dbDocs (dbDocKey b) = some j ∧
       1 < ks.length ∧ j < ks.length)) := by
  obtain ⟨cf1, cf2, cf3, cf4, cf5, cf6, cf7, cf8⟩ := connectToMongo_snd_fields w
  unfold handleDatabaseStorage
  by_cases hcred : dbUsername w.env = "" ∨ dbPassword w.env = "" ∨ dbName w.env = ""
  · rw [if_pos hcred]
    exact ⟨rfl, rfl, rfl, fun k _ => rfl, Or.inl rfl⟩
  rw [if_neg hcred]
  generalize hW : (connectToMongo w).2 = W at cf1 cf2 cf3 cf4 cf5 cf6 cf7 cf8 ⊢
  cases hc : (connectToMongo w).1 with
  | error e => exact ⟨cf1, cf2, cf3, fun k _ => congrFun cf5 k, Or.inl (congrFun cf5 _)⟩
  | ok u =>
    simp only []
    cases hf : W.findFail with
    | some e => exact ⟨cf1, cf2, cf3, fun k _ => congrFun cf5 k, Or.inl (congrFun cf5 _)⟩
    | none =>
      cases hd : W.dbDocs (dbDocKey b) with
      | some i =>
        obtain ⟨h1, h2, h3, h4, h5⟩ := dbAdvance_effects ks b i W
        refine ⟨h1.trans cf1, h2.trans cf2, h3.trans cf3,
          fun k hk => (h4 k hk).trans (congrFun cf5 k), ?_⟩
        rcases h5 with h | ⟨j, hj, hn, hjlt⟩
        · exact Or.inl (h.trans (congrFun cf5 _))
        · exact Or.inr (Or.inr ⟨j, hj, hn, hjlt⟩)
      | none =>
        cases hins : W.insertFail with
        | some e => exact ⟨cf1, cf2, cf3, fun k _ => congrFun cf5 k, Or.inl (congrFun cf5 _)⟩
        | none =>
          obtain ⟨h1, h2, h3, h4, h5⟩ := dbAdvance_effects ks b 0
            { W with
              dbDocs := fun k => if k = dbDocKey b then some 0 else W.dbDocs k,
              findFail := none,
              insertFail := none }
          refine ⟨h1.trans cf1, h2.trans cf2, h3.trans cf3, fun k hk => ?_, ?_⟩
          · rw [h4 k hk]
            simp only [if_neg hk]
            exact congrFun cf5 k
          · rcases h5 with h | ⟨j, hj, hn, hjlt⟩
            · simp only [if_pos rfl] at h
              exact Or.inr (Or.inl h)
            · exact Or.inr (Or.inr ⟨j, hj, hn, hjlt⟩)

/-- Frame lemma for a single `getNextEnvKey` call: the environment is
unchanged, only the caller's own memory entry, cursor file and cursor
document can change, and any changed cursor value is in range for the
caller's candidate list. -/
theorem getNextEnvKey_effects (b : String) (s : Storage) (w : World) :
    ((getNextEnvKey b s w).2).env = w.env ∧
    (∀ k, k ≠ b → ((getNextEnvKey b s w).2).memoryCaches k = w.memoryCaches k) ∧
    (∀ i, ((getNextEnvKey b s w).2).memoryCaches b = some i →
      w.memoryCaches b = some i ∨
        (1 < (getEnvKeys b w.env).length ∧ i < (getEnvKeys b w.env).length)) ∧
    (∀ p, p ≠ cacheFilePath b → ((getNextEnvKey b s w).2).fsMap p = w.fsMap p) ∧
    (∀ c, ((getNextEnvKey b s w).2).fsMap (cacheFilePath b) = some c →
      w.fsMap (cacheFilePath b) = some c ∨
        (1 < (getEnvKeys b w.env).length ∧ c.index < (getEnvKeys b w.env).length)) ∧
    (∀ k, k ≠ dbDocKey b → ((getNextEnvKey b s w).2).dbDocs k = w.dbDocs k) ∧
    (∀ i, ((getNextEnvKey b s w).2).dbDocs (dbDocKey b) = some i →
      w.dbDocs (dbDocKey b) = some i ∨
        (1 < (getEnvKeys b w.env).length ∧ i < (getEnvKeys b w.env).length)) := by
  by_cases h0 : (getEnvKeys b w.env).length = 0
  · have hw : (getNextEnvKey b s w).2 = w := by
      rw [getNextEnvKey_snd]
      simp only [getNextEnvKeyRun]
      rw [if_pos h0]
    rw [hw]
    exact ⟨rfl, fun k _ => rfl, fun i h => Or.inl h, fun p _ => rfl,
      fun c h => Or.inl h, fun k _ => rfl, fun i h => Or.inl h⟩
  by_cases h1 : (getEnvKeys b w.env).length = 1
  · have hw : (getNextEnvKey b s w).2 = w := by
      rw [getNextEnvKey_snd]
      simp only [getNextEnvKeyRun]
      rw [if_neg h0, if_pos h1]
    rw [hw]
    exact ⟨rfl, fun k _ => rfl, fun i h => Or.inl h, fun p _ => rfl,
      fun c h => Or.inl h, fun k _ => rfl, fun i h => Or.inl h⟩
  have hn : 1 < (getEnvKeys b w.env).length := by omega
  cases s with
  | MEMORY =>
    rw [getNextEnvKey_memory_eq b w hn]
    refine ⟨rfl, fun k hk => handleMemoryStorage_snd_ne _ _ _ _ hk, fun i h => ?_,
      fun p _ => rfl, fun c h => Or.inl h, fun k _ => rfl, fun i h => Or.inl h⟩
    have h2 : (handleMemoryStorage (getEnvKeys b w.env) b w.memoryCaches).2 b = some i := h
    rw [handleMemoryStorage_snd_self _ _ _ hn] at h2
    injection h2 with h3
    exact Or.inr ⟨hn, h3 ▸ Nat.mod_lt _ (by omega)⟩
  | DISK =>
    cases hwf : w.diskWriteFail with
    | some e =>
      have hw : (getNextEnvKey b Storage.DISK w).2 = w := by
        rw [getNextEnvKey_snd]
        simp only [getNextEnvKeyRun]
        rw [if_neg h0, if_neg h1, hwf, handleDiskStorage_err _ _ _ _ hn]
      rw [hw]
      exact ⟨rfl, fun k _ => rfl, fun i h => Or.inl h, fun p _ => rfl,
        fun c h => Or.inl h, fun k _ => rfl, fun i h => Or.inl h⟩
    | none =>
      rw [getNextEnvKey_disk_eq b w hn hwf]
      refine ⟨rfl, fun k _ => rfl, fun i h => Or.inl h, fun p hp => ?_,
        fun c h => ?_, fun k _ => rfl, fun i h => Or.inl h⟩
      · simp only [if_neg hp]
      · have h2 : (if cacheFilePath b = cacheFilePath b then
            (some { index := (((w.fsMap (cacheFilePath b)).getD { index := 0 }).index + 1)
              % (getEnvKeys b w.env).length })
          else w.fsMap (cacheFilePath b)) = some c := h
        rw [if_pos rfl] at h2
        injection h2 with h3
        exact Or.inr ⟨hn, by rw [← h3]; exact Nat.mod_lt _ (by omega)⟩
  | DATABASE =>
    have hw : (getNextEnvKey b Storage.DATABASE w).2 =
        (handleDatabaseStorage (getEnvKeys b w.env) b w).2 := by
      rw [getNextEnvKey_snd]
      simp only [getNextEnvKeyRun]
      rw [if_neg h0, if_neg h1]
    rw [hw]
    obtain ⟨g1, g2, g3, g4, g5⟩ :=
      handleDatabaseStorage_effects (getEnvKeys b w.env) b w
    refine ⟨g1, fun k _ => congrFun g2 k,
      fun i h => Or.inl (by rw [← congrFun g2 b]; exact h),
      fun p _ => congrFun g3 p,
      fun c h => Or.inl (by rw [← congrFun g3 (cacheFilePath b)]; exact h),
      fun k hk => g4 k hk, fun i h => ?_⟩
    rcases g5 with g | g | ⟨j, hj, _, hjlt⟩
    · exact Or.inl (by rw [← g]; exact h)
    · rw [g] at h
      injection h with h2
      exact Or.inr ⟨hn, by omega⟩
    · rw [hj] at h
      injection h with h2
      exact Or.inr ⟨hn, h2 ▸ hjlt⟩

/-- Distinct base names use distinct cursor-file paths. -/
theorem cacheFilePath_inj (b1 b2 : String)
    (h : cacheFilePath b1 = cacheFilePath b2) : b1 = b2 := by
  unfold cacheFilePath at h
  have hd := congrArg String.data h
  simp only [String.data_append] at hd
  exact String.ext (List.append_cancel_left (List.append_cancel_right hd))

/-- Distinct base names use distinct cursor-document names. -/
theorem dbDocKey_inj (b1 b2 : String)
    (h : dbDocKey b1 = dbDocKey b2) : b1 = b2 := by
  unfold dbDocKey at h
  have hd := congrArg String.data h
  simp only [String.data_append] at hd
  exact String.ext (List.append_cancel_left hd)

/-- One `getNextEnvKey` call preserves the cursor invariant. -/
theorem cursorInv_step (b : String) (s : Storage) (w : World)
    (h : CursorInv w) : CursorInv ((getNextEnvKey b s w).2) := by
  obtain ⟨hm, hf, hd⟩ := h
  obtain ⟨henv, hmne, hmb, hfne, hfb, hdne, hdb⟩ := getNextEnvKey_effects b s w
  refine ⟨fun b' i hsome => ?_, fun b' c hsome => ?_, fun b' i hsome => ?_⟩
  · rw [henv]
    by_cases hb : b' = b
    · subst hb
      rcases hmb i hsome with hold | hbnd
      · exact hm b' i hold
      · exact hbnd
    · exact hm b' i ((hmne b' hb) ▸ hsome)
  · rw [henv]
    by_cases hp : cacheFilePath b' = cacheFilePath b
    · obtain rfl : b' = b := cacheFilePath_inj b' b hp
      rcases hfb c hsome with hold | hbnd
      · exact hf b' c hold
      · exact hbnd
    · exact hf b' c ((hfne (cacheFilePath b') hp) ▸ hsome)
  · rw [henv]
    by_cases hk : dbDocKey b' = dbDocKey b
    · obtain rfl : b' = b := dbDocKey_inj b' b hk
      rcases hdb i hsome with hold | hbnd
      · exact hd b' i hold
      · exact hbnd
    · exact hd b' i ((hdne (dbDocKey b') hk) ▸ hsome)

/-- Observable facts of one MEMORY call with more than one candidate: the key
served is the one at the stored cursor (default 0), the returned index is the
advanced cursor, and the advanced cursor is stored back. -/
theorem memory_call_facts (b : String) (w : World)
    (hn : 1 < (getEnvKeys b w.env).length) :
    (getNextEnvKey b Storage.MEMORY w).1.key =
      (getEnvKeys b w.env).get? ((w.memoryCaches b).getD 0) ∧
    (getNextEnvKey b Storage.MEMORY w).1.index =
      ((w.memoryCaches b).getD 0 + 1) % (getEnvKeys b w.env).length ∧
    ((getNextEnvKey b Storage.MEMORY w).2).env = w.env ∧
    ((getNextEnvKey b Storage.MEMORY w).2).memoryCaches b =
      some (((w.memoryCaches b).getD 0 + 1) % (getEnvKeys b w.env).length) := by
  rw [getNextEnvKey_memory_eq b w hn]
  cases hm : w.memoryCaches b with
  | none =>
    rw [handleMemoryStorage_none_eq _ _ _ hm hn]
    exact ⟨rfl, rfl, rfl, by simp⟩
  | some c =>
    rw [handleMemoryStorage_some_eq _ _ _ _ hm hn]
    exact ⟨rfl, rfl, rfl, by simp⟩

/-- Observable facts of one DISK call with more than one candidate and a
healthy write: the key served is the one at the file cursor (default 0), the
returned index is the advanced cursor, and the advanced cursor is written
back. -/
theorem disk_call_facts (b : String) (w : World)
    (hn : 1 < (getEnvKeys b w.env).length) (hwf : w.diskWriteFail = none) :
    (getNextEnvKey b Storage.DISK w).1.key =
      (getEnvKeys b w.env).get?
        ((w.fsMap (cacheFilePath b)).getD { index := 0 }).index ∧
    (getNextEnvKey b Storage.DISK w).1.index =
      (((w.fsMap (cacheFilePath b)).getD { index := 0 }).index + 1)
        % (getEnvKeys b w.env).length ∧
    ((getNextEnvKey b Storage.DISK w).2).env = w.env ∧
    ((getNextEnvKey b Storage.DISK w).2).diskWriteFail = none ∧
    ((getNextEnvKey b Storage.DISK w).2).fsMap (cacheFilePath b) =
      some { index := (((w.fsMap (cacheFilePath b)).getD { index := 0 }).index + 1)
        % (getEnvKeys b w.env).length } := by
  rw [getNextEnvKey_disk_eq b w hn hwf]
  refine ⟨rfl, rfl, rfl, hwf, by simp⟩

/-- State of the MEMORY iteration from a fresh entry: after `j` calls the
environment is unchanged and the stored cursor is `j % n` (absent for
`j = 0`). -/
theorem iter_memory_state (b : String) (w : World)
    (hn : 1 < (getEnvKeys b w.env).length)
    (hm : w.memoryCaches b = none) (j : Nat) :
    (iterCalls b Storage.MEMORY w j).env = w.env ∧
    (iterCalls b Storage.MEMORY w j).memoryCaches b =
      (if j = 0 then none else some (j % (getEnvKeys b w.env).length)) := by
  induction j with
  | zero => exact ⟨rfl, by simpa using hm⟩
  | succ j ih =>
    obtain ⟨henv, hcur⟩ := ih
    have hn' : 1 < (getEnvKeys b (iterCalls b Storage.MEMORY w j).env).length := by
      rw [henv]; exact hn
    obtain ⟨_, _, henv', hcur'⟩ := memory_call_facts b (iterCalls b Storage.MEMORY w j) hn'
    constructor
    · show ((getNextEnvKey b Storage.MEMORY (iterCalls b Storage.MEMORY w j)).2).env = w.env
      rw [henv', henv]
    · show ((getNextEnvKey b Storage.MEMORY (iterCalls b Storage.MEMORY w j)).2).memoryCaches b = _
      rw [hcur', hcur, henv]
      by_cases hj : j = 0
      · subst hj
        simp
      · rw [if_neg hj, if_neg (by omega : ¬ j + 1 = 0)]
        simp only [Option.getD_some]
        rw [Nat.mod_add_mod]

/-- State of the DISK iteration from a missing cursor file: after `j` calls
the environment and write-health are unchanged and the file holds `j % n`
(absent for `j = 0`). -/
theorem iter_disk_state (b : String) (w : World)
    (hn : 1 < (getEnvKeys b w.env).length)
    (hf : w.fsMap (cacheFilePath b) = none)
    (hwf : w.diskWriteFail = none) (j : Nat) :
    (iterCalls b Storage.DISK w j).env = w.env ∧
    (iterCalls b Storage.DISK w j).diskWriteFail = none ∧
    (iterCalls b Storage.DISK w j).fsMap (cacheFilePath b) =
      (if j = 0 then none
       else some { index := j % (getEnvKeys b w.env).length }) := by
  induction j with
  | zero => exact ⟨rfl, hwf, by simpa using hf⟩
  | succ j ih =>
    obtain ⟨henv, hdwf, hcur⟩ := ih
    have hn' : 1 < (getEnvKeys b (iterCalls b Storage.DISK w j).env).length := by
      rw [henv]; exact hn
    obtain ⟨_, _, henv', hdwf', hcur'⟩ :=
      disk_call_facts b (iterCalls b Storage.DISK w j) hn' hdwf
    refine ⟨?_, ?_, ?_⟩
    · show ((getNextEnvKey b Storage.DISK (iterCalls b Storage.DISK w j)).2).env = w.env
      rw [henv', henv]
    · exact hdwf'
    · show ((getNextEnvKey b Storage.DISK (iterCalls b Storage.DISK w j)).2).fsMap
        (cacheFilePath b) = _
      rw [hcur', hcur, henv]
      by_cases hj : j = 0
      · subst hj
        simp
      · rw [if_neg hj, if_neg (by omega : ¬ j + 1 = 0)]
        simp only [Option.getD_some]
        rw [Nat.mod_add_mod]

/-- C6: for every state reachable by `getNextEnvKey` calls from a fresh
store, every persisted cursor (memory entry, cursor file, database document)
belongs to a base name with more than one candidate and lies in
`[0, candidateList.length)`; for base names with at most one candidate
nothing is ever persisted (the cursor is conceptually fixed at 0 and never
advanced). -/
theorem C6_reachable_cursor_invariant (w0 w : World)
    (hm0 : ∀ k, w0.memoryCaches k = none)
    (hf0 : ∀ p, w0.fsMap p = none)
    (hd0 : ∀ k, w0.dbDocs k = none)
    (hr : Reach w0 w) : CursorInv w := by
  induction hr with
  | refl =>
    refine ⟨fun b i h => ?_, fun b c h => ?_, fun b i h => ?_⟩
    · rw [hm0 b] at h
      cases h
    · rw [hf0 (cacheFilePath b)] at h
      cases h
    · rw [hd0 (dbDocKey b)] at h
      cases h
  | step w' b s _ ih => exact cursorInv_step b s w' ih

/-- C6 witness: the fresh world `w0` itself satisfies the invariant. -/
theorem C6_witness : CursorInv w0 :=
  C6_reachable_cursor_invariant w0 w0 (fun _ => rfl) (fun _ => rfl)
    (fun _ => rfl) Reach.refl

/-- C2: starting from a fresh store over a candidate list of length `n > 1`,
the `(j+1)`-st consecutive call (for the MEMORY and DISK backends, the cited
handlers) returns index `(j+1) % n` — the post-advance cursor — and key
`candidates[j % n]` — the value at the pre-advance cursor. -/
theorem C2_round_robin (b : String) (w : World)
    (hn : 1 < (getEnvKeys b w.env).length)
    (hm : w.memoryCaches b = none)
    (hf : w.fsMap (cacheFilePath b) = none)
    (hwf : w.diskWriteFail = none) (j : Nat) :
    ((getNextEnvKey b Storage.MEMORY (iterCalls b Storage.MEMORY w j)).1.index =
       (j + 1) % (getEnvKeys b w.env).length ∧
     (getNextEnvKey b Storage.MEMORY (iterCalls b Storage.MEMORY w j)).1.key =
       (getEnvKeys b w.env).get? (j % (getEnvKeys b w.env).length)) ∧
    ((getNextEnvKey b Storage.DISK (iterCalls b Storage.DISK w j)).1.index =
       (j + 1) % (getEnvKeys b w.env).length ∧
     (getNextEnvKey b Storage.DISK (iterCalls b Storage.DISK w j)).1.key =
       (getEnvKeys b w.env).get? (j % (getEnvKeys b w.env).length)) := by
  obtain ⟨henvM, hcurM⟩ := iter_memory_state b w hn hm j
  have hnM : 1 < (getEnvKeys b (iterCalls b Storage.MEMORY w j).env).length := by
    rw [henvM]; exact hn
  obtain ⟨hkeyM, hidxM, _, _⟩ := memory_call_facts b (iterCalls b Storage.MEMORY w j) hnM
  obtain ⟨henvD, hdwfD, hcurD⟩ := iter_disk_state b w hn hf hwf j
  have hnD : 1 < (getEnvKeys b (iterCalls b Storage.DISK w j).env).length := by
    rw [henvD]; exact hn
  obtain ⟨hkeyD, hidxD, _, _, _⟩ :=
    disk_call_facts b (iterCalls b Storage.DISK w j) hnD hdwfD
  refine ⟨⟨?_, ?_⟩, ?_, ?_⟩
  · rw [hidxM, hcurM, henvM]
    by_cases hj : j = 0
    · subst hj
      simp
    · rw [if_neg hj]
      simp only [Option.getD_some]
      rw [Nat.mod_add_mod]
  · rw [hkeyM, hcurM, henvM]
    by_cases hj : j = 0
    · subst hj
      simp
    · rw [if_neg hj]
      simp only [Option.getD_some]
  · rw [hidxD, hcurD, henvD]
    by_cases hj : j = 0
    · subst hj
      simp
    · rw [if_neg hj]
      simp only [Option.getD_some]
      rw [Nat.mod_add_mod]
  · rw [hkeyD, hcurD, henvD]
    by_cases hj : j = 0
    · subst hj
      simp
    · rw [if_neg hj]
      simp only [Option.getD_some]

/-- C2 witness: over `w0` (two candidates `alpha`, `beta` under `SRV_KEY_`),
the second call of each backend returns index `2 % 2 = 0` and key
`candidates[1 % 2] = beta`. -/
theorem C2_witness :
    ((getNextEnvKey "SRV_KEY_" Storage.MEMORY
        (iterCalls "SRV_KEY_" Storage.MEMORY w0 1)).1.index =
       (1 + 1) % (getEnvKeys "SRV_KEY_" w0.env).length ∧
     (getNextEnvKey "SRV_KEY_" Storage.MEMORY
        (iterCalls "SRV_KEY_" Storage.MEMORY w0 1)).1.key =
       (getEnvKeys "SRV_KEY_" w0.env).get? (1 % (getEnvKeys "SRV_KEY_" w0.env).length)) ∧
    ((getNextEnvKey "SRV_KEY_" Storage.DISK
        (iterCalls "SRV_KEY_" Storage.DISK w0 1)).1.index =
       (1 + 1) % (getEnvKeys "SRV_KEY_" w0.env).length ∧
     (getNextEnvKey "SRV_KEY_" Storage.DISK
        (iterCalls "SRV_KEY_" Storage.DISK w0 1)).1.key =
       (getEnvKeys "SRV_KEY_" w0.env).get? (1 % (getEnvKeys "SRV_KEY_" w0.env).length)) :=
  C2_round_robin "SRV_KEY_" w0 (by decide) rfl rfl rfl 1

/-- C1: `getNextEnvKey` never raises past its boundary: for every input,
either the `try`-body succeeds and its result is returned unchanged, or it
fails with some message `e` — no candidates, missing credentials, connection
failure, backend operation failure — and the returned result is exactly
`{ key: "", index: 0, message: "Error: " ++ e }`. -/
theorem C1_error_boundary (b : String) (s : Storage) (w : World) :
    (∃ r, (getNextEnvKeyRun b s w).1 = Except.ok r ∧
      (getNextEnvKey b s w).1 = r) ∨
    (∃ e, (getNextEnvKeyRun b s w).1 = Except.error e ∧
      (getNextEnvKey b s w).1 =
        { key := some "", index := 0, message := "Error: " ++ e }) := by
  rcases h : getNextEnvKeyRun b s w with ⟨res, w2⟩
  cases res with
  | ok r =>
    refine Or.inl ⟨r, rfl, ?_⟩
    rw [getNextEnvKey, h]
  | error e =>
    refine Or.inr ⟨e, rfl, ?_⟩
    rw [getNextEnvKey, h]

/-- C3: with exactly one candidate, `getNextEnvKey` returns that candidate
with index 0 for every backend, the world is completely unchanged (no store
write), and the result does not depend on any store or fault state (no store
read): any world with the same environment produces the same result. -/
theorem C3_single_candidate (b : String) (s : Storage) (w w2 : World)
    (h : (getEnvKeys b w.env).length = 1) (henv : w2.env = w.env) :
    getNextEnvKey b s w =
      ({ key := (getEnvKeys b w.env).get? 0, index := 0,
         message := "Only one key available, using key with index 0." }, w) ∧
    (getNextEnvKey b s w2).1 = (getNextEnvKey b s w).1 := by
  have h0 : ¬ (getEnvKeys b w.env).length = 0 := by omega
  have hx : getNextEnvKey b s w =
      ({ key := (getEnvKeys b w.env).get? 0, index := 0,
         message := "Only one key available, using key with index 0." }, w) := by
    rw [getNextEnvKey]
    simp only [getNextEnvKeyRun, h0, if_false, h, if_true]
    simp
  have h2 : (getEnvKeys b w2.env).length = 1 := by rw [henv]; exact h
  have h20 : ¬ (getEnvKeys b w2.env).length = 0 := by omega
  have hy : getNextEnvKey b s w2 =
      ({ key := (getEnvKeys b w2.env).get? 0, index := 0,
         message := "Only one key available, using key with index 0." }, w2) := by
    rw [getNextEnvKey]
    simp only [getNextEnvKeyRun, h20, if_false, h2, if_true]
    simp
  refine ⟨hx, ?_⟩
  rw [hx, hy]
  simp only [henv]

/-- C3 witness: over `wSolo` (single candidate `gamma` under `SOLO_`) the
call short-circuits and matches the result over `wSolo2`, which differs in
every store and fault field. -/
theorem C3_witness :
    getNextEnvKey "SOLO_" Storage.DATABASE wSolo =
      ({ key := (getEnvKeys "SOLO_" wSolo.env).get? 0, index := 0,
         message := "Only one key available, using key with index 0." }, wSolo) ∧
    (getNextEnvKey "SOLO_" Storage.DATABASE wSolo2).1 =
      (getNextEnvKey "SOLO_" Storage.DATABASE wSolo).1 :=
  C3_single_candidate "SOLO_" Storage.DATABASE wSolo wSolo2 (by decide) rfl

/-- C9: with zero matching configuration entries the call fails for every
backend: the result is key `""`, index 0, and the message naming the missing
variables, and the world is unchanged (nothing retried, no store touched). -/
theorem C9_no_candidates (b : String) (s : Storage) (w : World)
    (h : (getEnvKeys b w.env).length = 0) :
    getNextEnvKey b s w =
      ({ key := some "", index := 0,
         message := "Error: " ++
           ("No environment variables found with base name " ++ b ++ ".") }, w) := by
  rw [getNextEnvKey]
  simp only [getNextEnvKeyRun, h, if_true]

/-- C9 witness: no entry of `w0` starts with `NOPE_`. -/
theorem C9_witness :
    getNextEnvKey "NOPE_" Storage.DATABASE w0 =
      ({ key := some "", index := 0,
         message := "Error: " ++
           ("No environment variables found with base name " ++ "NOPE_" ++ ".") }, w0) :=
  C9_no_candidates "NOPE_" Storage.DATABASE w0 (by decide)

/-- C7: when reading or parsing the cursor file fails (missing, unreadable or
malformed file: `fsMap` yields `none`), the DISK call silently proceeds as if
starting fresh at index 0: it succeeds (no error is raised or propagated),
serves `candidates[0]`, writes back cursor `1 % n`, and its result equals the
result over a world whose cursor file reads `{index: 0}`. -/
theorem C7_disk_read_fallback (b : String) (w : World)
    (hread : w.fsMap (cacheFilePath b) = none)
    (hwf : w.diskWriteFail = none)
    (hn : 1 < (getEnvKeys b w.env).length) :
    (getNextEnvKeyRun b Storage.DISK w).1 =
      Except.ok
        { key := (getEnvKeys b w.env).get? 0,
          index := 1 % (getEnvKeys b w.env).length,
          message := "Successfully retrieved the key and updated the file cache. Current index: "
            ++ toString (1 % (getEnvKeys b w.env).length) } ∧
    ((getNextEnvKey b Storage.DISK w).2).fsMap (cacheFilePath b) =
      some { index := 1 % (getEnvKeys b w.env).length } ∧
    (getNextEnvKey b Storage.DISK w).1 =
      (getNextEnvKey b Storage.DISK
        { w with fsMap := fun p =>
            if p = cacheFilePath b then some { index := 0 } else w.fsMap p }).1 := by
  have h0 : ¬ (getEnvKeys b w.env).length = 0 := by omega
  have h1 : ¬ (getEnvKeys b w.env).length = 1 := by omega
  obtain ⟨hkey, hidx, _, _, hfile⟩ := disk_call_facts b w hn hwf
  rw [hread] at hkey hidx hfile
  refine ⟨?_, ?_, ?_⟩
  · simp only [getNextEnvKeyRun, h0, if_false, h1, hwf,
      handleDiskStorage_eq _ _ _ hn, hread]
    simp
  · rw [hfile]
    simp
  · have hn2 : 1 < (getEnvKeys b
        ({ w with fsMap := fun p =>
          if p = cacheFilePath b then some { index := 0 } else w.fsMap p } : World).env).length := hn
    have hseed : (({ w with fsMap := fun p =>
        if p = cacheFilePath b then some { index := 0 } else w.fsMap p } : World).fsMap
          (cacheFilePath b)) = some { index := 0 } := by simp
    rw [getNextEnvKey_disk_eq b w hn hwf,
      getNextEnvKey_disk_eq _ _ hn2 hwf, hread, hseed]
    rfl

/-- C7 witness: over `w0` the cursor file is missing and the DISK call
succeeds, starting from index 0. -/
theorem C7_witness :
    (getNextEnvKeyRun "SRV_KEY_" Storage.DISK w0).1 =
      Except.ok
        { key := (getEnvKeys "SRV_KEY_" w0.env).get? 0,
          index := 1 % (getEnvKeys "SRV_KEY_" w0.env).length,
          message := "Successfully retrieved the key and updated the file cache. Current index: "
            ++ toString (1 % (getEnvKeys "SRV_KEY_" w0.env).length) } ∧
    ((getNextEnvKey "SRV_KEY_" Storage.DISK w0).2).fsMap (cacheFilePath "SRV_KEY_") =
      some { index := 1 % (getEnvKeys "SRV_KEY_" w0.env).length } ∧
    (getNextEnvKey "SRV_KEY_" Storage.DISK w0).1 =
      (getNextEnvKey "SRV_KEY_" Storage.DISK
        { w0 with fsMap := fun p =>
            if p = cacheFilePath "SRV_KEY_" then some { index := 0 }
            else w0.fsMap p }).1 :=
  C7_disk_read_fallback "SRV_KEY_" w0 rfl rfl (by decide)

/-- With more than one candidate, complete configuration, a cached client,
healthy operations and an existing cursor document `i`, the DATABASE call
serves `candidates[i]` and stores back `(i+1) % n`. -/
theorem getNextEnvKey_db_some (b : String) (w : World) (i : Nat)
    (hn : 1 < (getEnvKeys b w.env).length)
    (hcu : ¬ dbUsername w.env = "") (hcp : ¬ dbPassword w.env = "")
    (hcn : ¬ dbName w.env = "") (hconn : w.clientConnected = true)
    (hff : w.findFail = none) (hu : w.updateFail = none)
    (hd : w.dbDocs (dbDocKey b) = some i) :
    getNextEnvKey b Storage.DATABASE w =
      ({ key := (getEnvKeys b w.env).get? i,
         index := (i + 1) % (getEnvKeys b w.env).length,
         message := "Successfully retrieved the key and updated the database cache. Current index: "
           ++ toString ((i + 1) % (getEnvKeys b w.env).length) },
       { w with dbDocs := fun k =>
           if k = dbDocKey b then some ((i + 1) % (getEnvKeys b w.env).length)
           else w.dbDocs k }) := by
  have h0 : ¬ (getEnvKeys b w.env).length = 0 := by omega
  have h1 : ¬ (getEnvKeys b w.env).length = 1 := by omega
  rw [getNextEnvKey]
  simp only [getNextEnvKeyRun, h0, if_false, h1]
  rw [handleDatabaseStorage_some_eq _ _ _ _ hcu hcp hcn hconn hff hu hd hn]

/-- C4 counterexample: in `wNoDbName` the variable `DB_NAME` is absent, both
credentials are present, and two candidates exist, yet the DATABASE call
succeeds (the destructuring default `'defaultDbName'` fills in for the absent
`DB_NAME`), so absence of the target database name does not cause a hard
error as the claim states. -/
theorem C4_counterexample :
    envGet wNoDbName.env "DB_NAME" = none ∧
    1 < (getEnvKeys "SRV_KEY_" wNoDbName.env).length ∧
    (getNextEnvKey "SRV_KEY_" Storage.DATABASE wNoDbName).1 =
      { key := some "alpha", index := 1,
        message := "Successfully retrieved the key and updated the database cache. Current index: 1" } := by
  refine ⟨rfl, by decide, by decide⟩

/-- C4 (amended): with the Remote backend selected and more than one
candidate, a falsy credential identity (`DB_USERNAME` absent or empty), a
falsy credential secret (`DB_PASSWORD` absent or empty), or an explicitly
empty target database name (`DB_NAME` set to `""`; an absent `DB_NAME`
defaults to `'defaultDbName'` and is not an error) causes a hard error
surfaced to the caller, not retried: the call returns the error result
immediately and the world is unchanged. -/
theorem C4_missing_credentials (b : String) (w : World)
    (hn : 1 < (getEnvKeys b w.env).length)
    (hcred : dbUsername w.env = "" ∨ dbPassword w.env = "" ∨ dbName w.env = "") :
    getNextEnvKey b Storage.DATABASE w =
      ({ key := some "", index := 0,
         message := "Error: " ++
           "DB_USERNAME, DB_PASSWORD, and DB_NAME environment variables must be set for database storage." },
       w) := by
  have h0 : ¬ (getEnvKeys b w.env).length = 0 := by omega
  have h1 : ¬ (getEnvKeys b w.env).length = 1 := by omega
  rw [getNextEnvKey]
  simp only [getNextEnvKeyRun, h0, if_false, h1]
  rw [handleDatabaseStorage, if_pos hcred]

/-- C4 witness: `wNoUser` lacks `DB_USERNAME`, so the DATABASE call with its
two candidates returns the hard-error result. -/
theorem C4_witness :
    getNextEnvKey "SRV_KEY_" Storage.DATABASE wNoUser =
      ({ key := some "", index := 0,
         message := "Error: " ++
           "DB_USERNAME, DB_PASSWORD, and DB_NAME environment variables must be set for database storage." },
       wNoUser) :=
  C4_missing_credentials "SRV_KEY_" wNoUser (by decide) (Or.inl (by decide))

/-- C5 counterexample: when every connection attempt fails, the five attempts
are interleaved with exactly the delays 1000, 2000, 3000 and 4000 ms — the
delay `5 × fixed_unit` claimed by "1 unit, 2 units, ... up to 5 units" never
occurs (there is no delay after the fifth, final attempt). -/
theorem C5_counterexample :
    connectWithRetry (fun _ => false) "boom" 5 =
      { result := Except.error "boom", attemptsMade := 5,
        delays := [1000, 2000, 3000, 4000] } ∧
    ¬ 5 * 1000 ∈ (connectWithRetry (fun _ => false) "boom" 5).delays := by
  constructor
  · rfl
  · intro hmem
    rw [connectWithRetry_all_fail _ _ (fun _ => rfl)] at hmem
    simp at hmem

/-- C5 (amended): remote connection establishment makes at most 5 connection
attempts; the backoff delays awaited between consecutive attempts are
`attempt_number × 1000` ms for the failed non-final attempts (1, 2, 3, then 4
units — never 5 units, as no delay follows the final attempt); and when all 5
attempts fail the loop gives up, the connection failure propagates, and
`getNextEnvKey` surfaces it as a failure result rather than hanging or
raising. -/
theorem C5_retry_budget (ok : Nat → Bool) (err : String) :
    (connectWithRetry ok err 5).attemptsMade ≤ 5 ∧
    (connectWithRetry ok err 5).delays =
      (List.range' 1 (connectWithRetry ok err 5).delays.length).map
        (fun k => 1000 * k) ∧
    (connectWithRetry ok err 5).delays.length ≤ 4 ∧
    ((∀ k, ok k = false) →
      connectWithRetry ok err 5 =
        { result := Except.error err, attemptsMade := 5,
          delays := [1000, 2000, 3000, 4000] }) ∧
    (∀ (b : String) (w : World), w.connAttemptOk = ok → w.connErrMsg = err →
      w.clientConnected = false → (∀ k, ok k = false) →
      ¬ dbUsername w.env = "" → ¬ dbPassword w.env = "" → ¬ dbName w.env = "" →
      1 < (getEnvKeys b w.env).length →
      getNextEnvKey b Storage.DATABASE w =
        ({ key := some "", index := 0, message := "Error: " ++ err }, w)) := by
  refine ⟨connectWithRetry_attempts_le ok err,
    (connectWithRetry_delays_shape ok err).1,
    (connectWithRetry_delays_shape ok err).2,
    fun hall => connectWithRetry_all_fail ok err hall, ?_⟩
  intro b w hok herr hconn hall hcu hcp hcn hn
  have h0 : ¬ (getEnvKeys b w.env).length = 0 := by omega
  have h1 : ¬ (getEnvKeys b w.env).length = 1 := by omega
  have hallw : ∀ k, w.connAttemptOk k = false := by
    intro k
    rw [hok]
    exact hall k
  rw [getNextEnvKey]
  simp only [getNextEnvKeyRun, h0, if_false, h1]
  rw [handleDatabaseStorage_conn_fail _ _ _ hcu hcp hcn hconn hallw, herr]

/-- C5 witness: with the all-failing oracle of `wConnFail` the retry budget
is exhausted and the DATABASE call returns the failure result. -/
theorem C5_witness :
    (connectWithRetry (fun _ => false) "boom" 5).attemptsMade ≤ 5 ∧
    connectWithRetry (fun _ => false) "boom" 5 =
      { result := Except.error "boom", attemptsMade := 5,
        delays := [1000, 2000, 3000, 4000] } ∧
    getNextEnvKey "SRV_KEY_" Storage.DATABASE wConnFail =
      ({ key := some "", index := 0, message := "Error: " ++ "boom" }, wConnFail) := by
  have h := C5_retry_budget (fun _ => false) "boom"
  exact ⟨h.1, h.2.2.2.1 (fun _ => rfl),
    h.2.2.2.2 "SRV_KEY_" wConnFail rfl rfl rfl (fun _ => rfl)
      (by decide) (by decide) (by decide) (by decide)⟩

/-- C10: if a backend store holds a cursor `i ≥ n` for a candidate list of
length `n > 1`, each handler indexes the candidate list out of bounds: the
successful result carries an undefined key (`none`, JS `undefined` — not the
empty string of an error result) together with index `(i+1) % n`, and the
index written back to the store is `(i+1) % n`, again within `[0, n)`. -/
theorem C10_out_of_range_cursor (b : String) (w : World) (i : Nat)
    (hn : 1 < (getEnvKeys b w.env).length)
    (hi : (getEnvKeys b w.env).length ≤ i)
    (hm : w.memoryCaches b = some i)
    (hf : w.fsMap (cacheFilePath b) = some { index := i })
    (hwf : w.diskWriteFail = none)
    (hcu : ¬ dbUsername w.env = "") (hcp : ¬ dbPassword w.env = "")
    (hcn : ¬ dbName w.env = "") (hconn : w.clientConnected = true)
    (hff : w.findFail = none) (hu : w.updateFail = none)
    (hd : w.dbDocs (dbDocKey b) = some i) :
    ((getNextEnvKey b Storage.MEMORY w).1 =
       { key := none, index := (i + 1) % (getEnvKeys b w.env).length,
         message := "Successfully retrieved the key and updated the memory cache. Current index: "
           ++ toString ((i + 1) % (getEnvKeys b w.env).length) } ∧
     ((getNextEnvKey b Storage.MEMORY w).2).memoryCaches b =
       some ((i + 1) % (getEnvKeys b w.env).length)) ∧
    ((getNextEnvKey b Storage.DISK w).1 =
       { key := none, index := (i + 1) % (getEnvKeys b w.env).length,
         message := "Successfully retrieved the key and updated the file cache. Current index: "
           ++ toString ((i + 1) % (getEnvKeys b w.env).length) } ∧
     ((getNextEnvKey b Storage.DISK w).2).fsMap (cacheFilePath b) =
       some { index := (i + 1) % (getEnvKeys b w.env).length }) ∧
    ((getNextEnvKey b Storage.DATABASE w).1 =
       { key := none, index := (i + 1) % (getEnvKeys b w.env).length,
         message := "Successfully retrieved the key and updated the database cache. Current index: "
           ++ toString ((i + 1) % (getEnvKeys b w.env).length) } ∧
     ((getNextEnvKey b Storage.DATABASE w).2).dbDocs (dbDocKey b) =
       some ((i + 1) % (getEnvKeys b w.env).length)) ∧
    (i + 1) % (getEnvKeys b w.env).length < (getEnvKeys b w.env).length := by
  have hnone : (getEnvKeys b w.env).get? i = none := List.get?_eq_none.mpr hi
  refine ⟨⟨?_, ?_⟩, ⟨?_, ?_⟩, ⟨?_, ?_⟩, Nat.mod_lt _ (by omega)⟩
  · rw [getNextEnvKey_memory_eq b w hn,
      handleMemoryStorage_some_eq _ _ _ _ hm hn]
    simp only [hnone]
  · rw [getNextEnvKey_memory_eq b w hn,
      handleMemoryStorage_some_eq _ _ _ _ hm hn]
    simp
  · rw [getNextEnvKey_disk_eq b w hn hwf, hf]
    simp only [Option.getD_some, hnone]
  · rw [getNextEnvKey_disk_eq b w hn hwf, hf]
    simp
  · rw [getNextEnvKey_db_some b w i hn hcu hcp hcn hconn hff hu hd]
    simp only [hnone]
  · rw [getNextEnvKey_db_some b w i hn hcu hcp hcn hconn hff hu hd]
    simp

/-- C10 witness: `wSeed` stores cursor 5 everywhere for the two-element list
under `SRV_KEY_`; every backend serves an undefined key and writes back
`6 % 2 = 0`. -/
theorem C10_witness :
    ((getNextEnvKey "SRV_KEY_" Storage.MEMORY wSeed).1 =
       { key := none, index := (5 + 1) % (getEnvKeys "SRV_KEY_" wSeed.env).length,
         message := "Successfully retrieved the key and updated the memory cache. Current index: "
           ++ toString ((5 + 1) % (getEnvKeys "SRV_KEY_" wSeed.env).length) } ∧
     ((getNextEnvKey "SRV_KEY_" Storage.MEMORY wSeed).2).memoryCaches "SRV_KEY_" =
       some ((5 + 1) % (getEnvKeys "SRV_KEY_" wSeed.env).length)) ∧
    ((getNextEnvKey "SRV_KEY_" Storage.DISK wSeed).1 =
       { key := none, index := (5 + 1) % (getEnvKeys "SRV_KEY_" wSeed.env).length,
         message := "Successfully retrieved the key and updated the file cache. Current index: "
           ++ toString ((5 + 1) % (getEnvKeys "SRV_KEY_" wSeed.env).length) } ∧
     ((getNextEnvKey "SRV_KEY_" Storage.DISK wSeed).2).fsMap (cacheFilePath "SRV_KEY_") =
       some { index := (5 + 1) % (getEnvKeys "SRV_KEY_" wSeed.env).length }) ∧
    ((getNextEnvKey "SRV_KEY_" Storage.DATABASE wSeed).1 =
       { key := none, index := (5 + 1) % (getEnvKeys "SRV_KEY_" wSeed.env).length,
         message := "Successfully retrieved the key and updated the database cache. Current index: "
           ++ toString ((5 + 1) % (getEnvKeys "SRV_KEY_" wSeed.env).length) } ∧
     ((getNextEnvKey "SRV_KEY_" Storage.DATABASE wSeed).2).dbDocs (dbDocKey "SRV_KEY_") =
       some ((5 + 1) % (getEnvKeys "SRV_KEY_" wSeed.env).length)) ∧
    (5 + 1) % (getEnvKeys "SRV_KEY_" wSeed.env).length <
      (getEnvKeys "SRV_KEY_" wSeed.env).length :=
  C10_out_of_range_cursor "SRV_KEY_" wSeed 5 (by decide) (by decide)
    (by decide) (by decide) rfl (by decide) (by decide) (by decide) rfl rfl rfl
    (by decide)

/-- Looking a key up past a head entry with a different name skips the
head. -/
theorem envGet_cons_ne (k x v : String) (tl : List (String × String))
    (h : x ≠ k) : envGet ((k, v) :: tl) x = envGet tl x := by
  have hb : (k == x) = false := beq_eq_false_iff_ne.mpr (fun he => h he.symm)
  simp [envGet, List.find?_cons, hb]

/-- Looking the head entry's name up yields its value. -/
theorem envGet_cons_self (k v : String) (tl : List (String × String)) :
    envGet ((k, v) :: tl) k = some v := by
  simp [envGet, List.find?_cons]

/-- The `Object.keys`-then-lookup pipeline of `getEnvKeys` agrees with the
direct entry-wise description of the spec whenever the environment has no
duplicate names (as `process.env` never does). -/
theorem getEnvKeys_eq_specResolve (b : String) :
    ∀ env : List (String × String), (env.map Prod.fst).Nodup →
      getEnvKeys b env = specResolve b env := by
  intro env
  induction env with
  | nil => intro _; rfl
  | cons e tl ih =>
    intro hnd
    obtain ⟨k, v⟩ := e
    rw [List.map_cons] at hnd
    obtain ⟨hk, hnd'⟩ := List.nodup_cons.mp hnd
    have htail : ((tl.map Prod.fst).filter (fun x => strStartsWith x b)).map
        (fun x => envGet ((k, v) :: tl) x) =
      ((tl.map Prod.fst).filter (fun x => strStartsWith x b)).map
        (fun x => envGet tl x) := by
      apply List.map_congr_left
      intro x hx
      have hxk : x ≠ k := fun he => hk (he ▸ (List.mem_filter.mp hx).1)
      exact envGet_cons_ne k x v tl hxk
    have ihe := ih hnd'
    by_cases hp : strStartsWith k b = true
    · have lhs1 : getEnvKeys b ((k, v) :: tl) =
          (jsTruthy (some v)).toList ++ getEnvKeys b tl := by
        simp only [getEnvKeys, List.map_cons, List.filter_cons, hp, if_true,
          List.filterMap_cons, envGet_cons_self, htail]
        cases hj : jsTruthy (some v) <;> simp
      have rhs1 : specResolve b ((k, v) :: tl) =
          (jsTruthy (some v)).toList ++ specResolve b tl := by
        simp only [specResolve, List.filter_cons, hp, if_true, List.map_cons]
        by_cases hv : v = ""
        · subst hv
          rfl
        · have hbeq : (v == "") = false := beq_eq_false_iff_ne.mpr hv
          simp [jsTruthy, hbeq, hv]
      rw [lhs1, rhs1, ihe]
    · have hp' : strStartsWith k b = false := by
        cases hb : strStartsWith k b
        · rfl
        · exact absurd hb hp
      have lhs1 : getEnvKeys b ((k, v) :: tl) = getEnvKeys b tl := by
        simp only [getEnvKeys, List.map_cons, List.filter_cons, hp',
          Bool.false_eq_true, if_false, htail]
      have rhs1 : specResolve b ((k, v) :: tl) = specResolve b tl := by
        simp only [specResolve, List.filter_cons, hp', Bool.false_eq_true, if_false]
      rw [lhs1, rhs1, ihe]

/-- C8: the Key Set Resolver returns exactly the values of configuration
entries whose names start with the prefix, in the configuration source's
enumeration order, with empty or missing values discarded (equality with the
spec's direct entry-wise description, under the no-duplicate-names property
`process.env` always has); it is a total function — no error is raised — and
being pure, a second call on an unchanged configuration returns the identical
ordered list. -/
theorem C8_resolver (b : String) (env : List (String × String))
    (hnd : (env.map Prod.fst).Nodup) :
    getEnvKeys b env = specResolve b env ∧
    getEnvKeys b env = getEnvKeys b env :=
  ⟨getEnvKeys_eq_specResolve b env hnd, rfl⟩

/-- C8 witness: over `wEnvC8` (names `A_1`, `A_2`, `B_1`, `A_3`; `A_2` has an
empty value) the resolver for base name `A_` gives `["x", "z"]` on both
descriptions. -/
theorem C8_witness :
    getEnvKeys "A_" wEnvC8 = specResolve "A_" wEnvC8 ∧
    getEnvKeys "A_" wEnvC8 = getEnvKeys "A_" wEnvC8 :=
  C8_resolver "A_" wEnvC8 (by decide)

end EnvHolster
